import Mathlib

/-!
Verification development for the drone/plate reinforcement-learning task
(`isaacgymenvs/tasks/drone_plate.py`).

Floating-point tensors are modelled as exact numbers: real numbers in the
reward/termination evaluator (`compute_drone_reward`, which takes a square
root) and rational numbers in the orchestration layer (`set_targets`,
`reset_idx`, `pre_physics_step`), whose arithmetic is exact.  A batch of
`n` environments is a family of per-environment values indexed by `Fin n`;
every torch operation in the source is elementwise over the batch
dimension, so batched tensors become functions out of `Fin n`.

Random draws (`torch_rand_float` perturbations, numpy plate-tilt
quaternions) are passed to the embedded functions as explicit arguments;
hypotheses on those arguments state the sampling ranges.
-/

namespace DronePlate

/-- A 3-component vector, one row of a torch tensor of shape (*, 3). -/
structure Vec3 (α : Type) where
  x : α
  y : α
  z : α
deriving DecidableEq, Repr

/-- A quaternion in the simulator component order (x, y, z, w). -/
structure Quat (α : Type) where
  x : α
  y : α
  z : α
  w : α
deriving DecidableEq, Repr

/-- Modelled from the spec: `quat_rotate` comes from
`isaacgymenvs.utils.torch_jit_utils`, which is imported by
`drone_plate.py` but is not among this repository's sources.  The spec
(section 4.5, step 3) describes the operation as rotating a body-frame
axis by the orientation quaternion into the world frame.  For a
quaternion `q = (q⃗, w)` in (x, y, z, w) order the rotation of a vector
`v` is `v·(2w² − 1) + 2w·(q⃗ × v) + 2·q⃗·(q⃗ ⬝ v)`. -/
def quat_rotate {α : Type} [CommRing α] (q : Quat α) (v : Vec3 α) : Vec3 α :=
  let a := 2 * q.w * q.w - 1
  let d := q.x * v.x + q.y * v.y + q.z * v.z
  { x := v.x * a + (q.y * v.z - q.z * v.y) * q.w * 2 + q.x * d * 2
    y := v.y * a + (q.z * v.x - q.x * v.z) * q.w * 2 + q.y * d * 2
    z := v.z * a + (q.x * v.y - q.y * v.x) * q.w * 2 + q.z * d * 2 }

/-- The standard basis vector along a given axis (0 = x, 1 = y, 2 = z). -/
def basis_vec {α : Type} [CommRing α] (axis : Fin 3) : Vec3 α :=
  if axis = 0 then ⟨1, 0, 0⟩ else if axis = 1 then ⟨0, 1, 0⟩ else ⟨0, 0, 1⟩

/-- Modelled from the spec: `quat_axis` from
`isaacgymenvs.utils.torch_jit_utils` (not among this repository's
sources) rotates the chosen body-frame basis axis by the quaternion. -/
def quat_axis {α : Type} [CommRing α] (q : Quat α) (axis : Fin 3) : Vec3 α :=
  quat_rotate q (basis_vec axis)

/-- The reward/termination evaluator, per environment
(`compute_drone_reward`, drone_plate.py lines 287-309).  The torch
version is elementwise across the batch, so one environment's row fully
determines its outputs.  `reset_buf` is passed as in the source, where it
only supplies the shape for `torch.ones_like`/`torch.zeros_like`; the
chained `torch.where` updates of `die` become nested conditionals, the
innermost conditional corresponding to the first `torch.where`. -/
noncomputable def compute_drone_reward (root_positions target_root_positions : Vec3 ℝ)
    (root_quats : Quat ℝ) (root_linvels root_angvels : Vec3 ℝ)
    (reset_buf : ℤ) (progress_buf : ℤ) (max_episode_length : ℤ) : ℝ × ℤ :=
  let target_dist := Real.sqrt ((target_root_positions.x - root_positions.x) ^ 2 +
    (target_root_positions.y - root_positions.y) ^ 2 +
    (target_root_positions.z - root_positions.z) ^ 2)
  let pos_reward := 3 / (1 + target_dist * target_dist)
  let ups := quat_axis root_quats 2
  let tiltage := |1 - ups.z|
  let up_reward := 1 / (1 + tiltage * tiltage)
  let spinnage := |root_angvels.z|
  let spinnage_reward := 1 / (1 + spinnage * spinnage)
  let reward := pos_reward + pos_reward * (up_reward + spinnage_reward)
  let die : ℤ := 0
  let die : ℤ := if target_dist > 8 then 1 else die
  let die : ℤ := if root_positions.z < 0.5 then 1 else die
  let die : ℤ := if ups.z < 0 then 1 else die
  let reset : ℤ := if progress_buf ≥ max_episode_length - 1 then 1 else die
  (reward, reset)

/-- One 13-float row of the simulator root tensor: position, orientation
quaternion, linear velocity, angular velocity. -/
structure RootState (α : Type) where
  pos : Vec3 α
  quat : Quat α
  linvel : Vec3 α
  angvel : Vec3 α
deriving DecidableEq, Repr

/-- The per-environment buffers of the task that the orchestration layer
reads and writes: the drone root-state slice `root_states`
(`vec_root_tensor[:, 0, :]`, line 44), the plate/marker slice
`marker_states` (`vec_root_tensor[:, 1, :]`, line 52), the target
positions (line 46), the reset flags and progress counters inherited
from the base task, and the control tensors `thrusts` and `forces`
(lines 67-68; `forces` has one 3-vector per rigid body, 6 bodies per
environment). -/
structure EnvState (n : ℕ) where
  root_states : Fin n → RootState ℚ
  marker_states : Fin n → RootState ℚ
  target_root_positions : Fin n → Vec3 ℚ
  reset_buf : Fin n → ℤ
  progress_buf : Fin n → ℤ
  thrusts : Fin n → Fin 4 → ℚ
  forces : Fin n → Fin 6 → Vec3 ℚ

/-- Line 61: lower clamp bound for the per-rotor thrust. -/
def thrust_lower_limit : ℚ := 0

/-- Line 62: upper clamp bound for the per-rotor thrust. -/
def thrust_upper_limit : ℚ := 2000

/-- Line 63: scale from a normalized action component to a thrust. -/
def thrust_velocity_scale : ℚ := 2000

/-- torch.clamp on a scalar: the value moved into [lo, hi]. -/
def clamp (x lo hi : ℚ) : ℚ := min (max x lo) hi

/-- The per-rotor thrust of one environment (lines 218-221): the
environment's own action component scaled by `thrust_velocity_scale`
and clamped to `[thrust_lower_limit, thrust_upper_limit]`.  torch.clamp
is elementwise, so rotor `k` of an environment depends only on component
`k` of that environment's action row. -/
def thrust_prop (action : Fin 4 → ℚ) (k : Fin 4) : ℚ :=
  clamp (action k * thrust_velocity_scale) thrust_lower_limit thrust_upper_limit

/-- Column 0 of `all_actor_indices` (line 70:
`arange(num_envs * 2).reshape(num_envs, 2)`): the global actor index of
each environment's drone, `2 * i`. -/
def drone_actor_indices {n : ℕ} (env_ids : Finset (Fin n)) : Finset ℕ :=
  env_ids.image fun i => 2 * i.val

/-- Column 1 of `all_actor_indices` (line 70): the global actor index of
each environment's plate/marker, `2 * i + 1`. -/
def marker_actor_indices {n : ℕ} (env_ids : Finset (Fin n)) : Finset ℕ :=
  env_ids.image fun i => 2 * i.val + 1

/-- The target scheduler (`set_targets`, lines 164-171).  For the given
environments the target x and y are `0 * 10 - 5` (the random tensor is
degenerate zeros in the source) and z is `0 + 1`; the marker position is
set to the target (with `+ 0.0` on z).  Returns the updated state
together with the marker actor indices (line 170, column 1). -/
def set_targets {n : ℕ} (s : EnvState n) (env_ids : Finset (Fin n)) :
    EnvState n × Finset ℕ :=
  let tgt : Vec3 ℚ := ⟨0 * 10 - 5, 0 * 10 - 5, 0 + 1⟩
  ({ s with
      target_root_positions := fun i =>
        if i ∈ env_ids then tgt else s.target_root_positions i
      marker_states := fun i =>
        if i ∈ env_ids then { s.marker_states i with pos := ⟨tgt.x, tgt.y, tgt.z + 0⟩ }
        else s.marker_states i },
   marker_actor_indices env_ids)

/-- The episode resetter (`reset_idx`, lines 173-199).  The
`torch_rand_float` draws of lines 179-181 are the explicit argument
`pert` and the numpy plate-tilt quaternions of lines 185-190 are
`plate_quats`.  The drone root state of each given environment becomes
the initial snapshot with the position perturbed; when `reset_plates`
is true the marker quaternion of each given environment is overwritten
with the fresh draw (line 192); reset flags and progress counters of the
given environments are zeroed (lines 196-197).  The middle component
records the indexed root-state write the function itself performs (line
194, over the drone actor indices); the last component is the return
value `torch.unique(actor_indices)` (line 199), a sorted duplicate-free
list. -/
def reset_idx {n : ℕ} (s : EnvState n) (initial_root_states : Fin n → RootState ℚ)
    (env_ids : Finset (Fin n)) (reset_plates : Bool)
    (pert : Fin n → Vec3 ℚ) (plate_quats : Fin n → Quat ℚ) :
    EnvState n × List (Finset ℕ) × List ℕ :=
  let actor_indices := drone_actor_indices env_ids
  ({ s with
      root_states := fun i =>
        if i ∈ env_ids then
          { initial_root_states i with
              pos := ⟨(initial_root_states i).pos.x + (pert i).x,
                (initial_root_states i).pos.y + (pert i).y,
                (initial_root_states i).pos.z + (pert i).z⟩ }
        else s.root_states i
      marker_states := fun i =>
        if reset_plates ∧ i ∈ env_ids then { s.marker_states i with quat := plate_quats i }
        else s.marker_states i
      reset_buf := fun i => if i ∈ env_ids then 0 else s.reset_buf i
      progress_buf := fun i => if i ∈ env_ids then 0 else s.progress_buf i },
   [actor_indices],
   actor_indices.sort (· ≤ ·))

/-- Line 202: the environments whose progress counter is an exact
multiple of the re-targeting period 500. -/
def set_target_ids {n : ℕ} (s : EnvState n) : Finset (Fin n) :=
  Finset.univ.filter fun i => s.progress_buf i % 500 = 0

/-- Line 207: the environments whose reset flag is nonzero. -/
def reset_env_ids {n : ℕ} (s : EnvState n) : Finset (Fin n) :=
  Finset.univ.filter fun i => s.reset_buf i ≠ 0

/-- Lines 202-205 of `pre_physics_step`: when at least one environment
is due a new target, call `set_targets` on exactly that set; otherwise
leave the state alone with an empty index tensor. -/
def pre_physics_targets {n : ℕ} (s : EnvState n) : EnvState n × Finset ℕ :=
  if (set_target_ids s).Nonempty then set_targets s (set_target_ids s)
  else (s, (∅ : Finset ℕ))

/-- Line 210: `reset_plates` is passed to `reset_idx` exactly when every
environment of the reset set has progress counter 0 entering the tick
(`(self.progress_buf[reset_env_ids] == 0).all()`). -/
def reset_plates_flag {n : ℕ} (s : EnvState n) : Bool :=
  decide (∀ i ∈ reset_env_ids s, s.progress_buf i = 0)

/-- Lines 207-211 of `pre_physics_step`: when at least one environment
is flagged, call `reset_idx` on exactly the flagged set with the
epoch-boundary flag of line 210; otherwise no state change, no write and
an empty index tensor. -/
def pre_physics_resets {n : ℕ} (s : EnvState n) (initial_root_states : Fin n → RootState ℚ)
    (pert : Fin n → Vec3 ℚ) (plate_quats : Fin n → Quat ℚ) :
    EnvState n × List (Finset ℕ) × List ℕ :=
  if (reset_env_ids s).Nonempty then
    reset_idx s initial_root_states (reset_env_ids s) (reset_plates_flag s) pert plate_quats
  else (s, [], [])

/-- Lines 225-228: the force buffer after action mapping.  The
z-component of rigid bodies 1-4 (the rotor-bearing bodies) becomes the
timestep times the corresponding clamped per-rotor thrust; every other
entry is unchanged. -/
def mapped_forces {n : ℕ} (s : EnvState n) (actions : Fin n → Fin 4 → ℚ) (dt : ℚ) :
    Fin n → Fin 6 → Vec3 ℚ :=
  fun i b =>
    if b = 1 then { s.forces i b with z := dt * thrust_prop (actions i) 0 }
    else if b = 2 then { s.forces i b with z := dt * thrust_prop (actions i) 1 }
    else if b = 3 then { s.forces i b with z := dt * thrust_prop (actions i) 2 }
    else if b = 4 then { s.forces i b with z := dt * thrust_prop (actions i) 3 }
    else s.forces i b

/-- The step orchestrator up to force application (`pre_physics_step`,
lines 201-233).  In source order: re-target the environments due a new
target (lines 202-205); reset the flagged environments, passing
`reset_plates` exactly when every flagged environment has progress 0
(lines 207-211); push the deduplicated union of both actor-index sets
when nonempty (lines 213-215); map actions to forces on rigid bodies
1-4 (lines 217-228, z-component only); zero the thrusts and forces of
the flagged environments (lines 230-231).  The second component is the
ordered list of indexed root-state writes issued during the tick: the
one `reset_idx` performs internally (line 194) followed by the combined
write of line 215.  (The rigid-body force application of line 233 is not
a root-state write and is represented by the `forces` field itself.) -/
def pre_physics_step {n : ℕ} (s : EnvState n) (initial_root_states : Fin n → RootState ℚ)
    (actions : Fin n → Fin 4 → ℚ) (dt : ℚ)
    (pert : Fin n → Vec3 ℚ) (plate_quats : Fin n → Quat ℚ) :
    EnvState n × List (Finset ℕ) :=
  let st := pre_physics_targets s
  let rr := pre_physics_resets st.1 initial_root_states pert plate_quats
  let s2 := rr.1
  let reset_indices := st.2 ∪ rr.2.2.toFinset
  let union_writes : List (Finset ℕ) :=
    if reset_indices.Nonempty then [reset_indices] else []
  let rids := reset_env_ids st.1
  ({ s2 with
      thrusts := fun i => if i ∈ rids then (fun _ => 0) else s2.thrusts i
      forces := fun i => if i ∈ rids then (fun _ => ⟨0, 0, 0⟩)
        else mapped_forces s2 actions dt i },
   rr.2.1 ++ union_writes)

/-- The set of global actor indices whose root-tensor row differs
between two states: drone rows live at even indices `2·i`, plate/marker
rows at odd indices `2·i + 1` (line 70 layout). -/
def modified_actor_indices {n : ℕ} (old new : EnvState n) : Finset ℕ :=
  drone_actor_indices (Finset.univ.filter fun i => new.root_states i ≠ old.root_states i) ∪
    marker_actor_indices (Finset.univ.filter fun i => new.marker_states i ≠ old.marker_states i)

/-- A concrete initial-state snapshot for a one-environment batch. -/
def exInit1 : Fin 1 → RootState ℚ :=
  fun _ => ⟨⟨0, 0, 1⟩, ⟨0, 0, 0, 1⟩, ⟨0, 0, 0⟩, ⟨0, 0, 0⟩⟩

/-- A concrete in-range action batch for one environment. -/
def exActions1 : Fin 1 → Fin 4 → ℚ := fun _ _ => 1 / 2

/-- A concrete action batch whose components are far outside [-1, 1]. -/
def exActionsBig : Fin 1 → Fin 4 → ℚ := fun _ _ => 100

/-- Concrete perturbation draws inside the sampling ranges of lines
179-181. -/
def exPert1 : Fin 1 → Vec3 ℚ := fun _ => ⟨1, -1, 1 / 2⟩

/-- Concrete plate-tilt quaternion draws (lines 185-190). -/
def exPlateQuats1 : Fin 1 → Quat ℚ := fun _ => ⟨1 / 10, 0, 0, 9 / 10⟩

/-- A concrete one-environment state mid-episode (progress 5) whose
reset flag is set. -/
def exStateReset1 : EnvState 1 where
  root_states := fun _ => ⟨⟨2, 3, 4⟩, ⟨0, 0, 1, 0⟩, ⟨1, 1, 1⟩, ⟨2, 2, 2⟩⟩
  marker_states := fun _ => ⟨⟨0, 0, 1⟩, ⟨0, 0, 0, 1⟩, ⟨0, 0, 0⟩, ⟨0, 0, 0⟩⟩
  target_root_positions := fun _ => ⟨0, 0, 1⟩
  reset_buf := fun _ => 1
  progress_buf := fun _ => 5
  thrusts := fun _ _ => 7
  forces := fun _ _ => ⟨0, 0, 9⟩

/-- A concrete one-environment state at progress 0 whose reset flag is
set, so the whole reset set has progress 0 entering the tick. -/
def exStateEpoch : EnvState 1 where
  root_states := fun _ => ⟨⟨2, 3, 4⟩, ⟨0, 0, 1, 0⟩, ⟨1, 1, 1⟩, ⟨2, 2, 2⟩⟩
  marker_states := fun _ => ⟨⟨0, 0, 1⟩, ⟨0, 0, 0, 1⟩, ⟨0, 0, 0⟩, ⟨0, 0, 0⟩⟩
  target_root_positions := fun _ => ⟨0, 0, 1⟩
  reset_buf := fun _ => 1
  progress_buf := fun _ => 0
  thrusts := fun _ _ => 7
  forces := fun _ _ => ⟨0, 0, 9⟩

/-- The z basis vector is the third standard basis vector. -/
lemma basis_vec_two {α : Type} [CommRing α] : (basis_vec 2 : Vec3 α) = ⟨0, 0, 1⟩ := rfl

/-- Each shaping factor `c / (1 + x·x)` is strictly positive and at most
`c` whenever `x` is a real number and `c > 0`. -/
lemma shaping_factor_bounds (c x : ℝ) (hc : 0 < c) :
    0 < c / (1 + x * x) ∧ c / (1 + x * x) ≤ c := by
  have hx : (0 : ℝ) < 1 + x * x := by nlinarith [mul_self_nonneg x]
  refine ⟨div_pos hc hx, div_le_self hc.le ?_⟩
  nlinarith [mul_self_nonneg x]

/-- The reward expression `p + p·(u + s)` with `p = 3/(1+d²)`,
`u = 1/(1+t²)`, `s = 1/(1+v²)` lies in the interval (0, 9]. -/
lemma reward_formula_bounds (d t v : ℝ) :
    0 < 3 / (1 + d * d) + 3 / (1 + d * d) * (1 / (1 + t * t) + 1 / (1 + v * v)) ∧
      3 / (1 + d * d) + 3 / (1 + d * d) * (1 / (1 + t * t) + 1 / (1 + v * v)) ≤ 9 := by
  obtain ⟨hp0, hp3⟩ := shaping_factor_bounds 3 d (by norm_num)
  obtain ⟨hu0, hu1⟩ := shaping_factor_bounds 1 t (by norm_num)
  obtain ⟨hv0, hv1⟩ := shaping_factor_bounds 1 v (by norm_num)
  constructor
  · have := mul_pos hp0 (add_pos hu0 hv0)
    linarith
  · have h2 : 1 / (1 + t * t) + 1 / (1 + v * v) ≤ 2 := by linarith
    have h3 : 3 / (1 + d * d) * (1 / (1 + t * t) + 1 / (1 + v * v)) ≤ 3 * 2 :=
      mul_le_mul hp3 h2 (by positivity) (by norm_num)
    linarith

/-- The target-scheduling stage never touches the reset flags. -/
lemma pre_physics_targets_reset_buf {n : ℕ} (s : EnvState n) :
    (pre_physics_targets s).1.reset_buf = s.reset_buf := by
  unfold pre_physics_targets
  split <;> rfl

/-- The target-scheduling stage never touches the progress counters. -/
lemma pre_physics_targets_progress_buf {n : ℕ} (s : EnvState n) :
    (pre_physics_targets s).1.progress_buf = s.progress_buf := by
  unfold pre_physics_targets
  split <;> rfl

/-- The reset set is unchanged by the target-scheduling stage. -/
lemma reset_env_ids_pre_physics_targets {n : ℕ} (s : EnvState n) :
    reset_env_ids (pre_physics_targets s).1 = reset_env_ids s := by
  unfold reset_env_ids
  rw [pre_physics_targets_reset_buf]

/-- The epoch-boundary flag after the target-scheduling stage is decided
by the original reset set and progress counters. -/
lemma reset_plates_flag_pre_physics_targets {n : ℕ} (s : EnvState n) :
    reset_plates_flag (pre_physics_targets s).1 =
      decide (∀ i ∈ reset_env_ids s, s.progress_buf i = 0) := by
  unfold reset_plates_flag
  rw [reset_env_ids_pre_physics_targets, pre_physics_targets_progress_buf]

/-- The target-scheduling stage never touches a marker quaternion. -/
lemma pre_physics_targets_marker_quat {n : ℕ} (s : EnvState n) (i : Fin n) :
    ((pre_physics_targets s).1.marker_states i).quat = (s.marker_states i).quat := by
  unfold pre_physics_targets
  split
  · by_cases h : i ∈ set_target_ids s <;> simp [set_targets, h]
  · rfl

/-- With an empty reset set the reset stage does nothing. -/
lemma pre_physics_resets_of_empty {n : ℕ} (s : EnvState n)
    (initial_root_states : Fin n → RootState ℚ) (pert : Fin n → Vec3 ℚ)
    (plate_quats : Fin n → Quat ℚ) (h : ¬(reset_env_ids s).Nonempty) :
    pre_physics_resets s initial_root_states pert plate_quats = (s, [], []) := by
  unfold pre_physics_resets
  rw [if_neg h]

/-- With a nonempty reset set the reset stage is `reset_idx` on that set
with the epoch-boundary flag. -/
lemma pre_physics_resets_of_nonempty {n : ℕ} (s : EnvState n)
    (initial_root_states : Fin n → RootState ℚ) (pert : Fin n → Vec3 ℚ)
    (plate_quats : Fin n → Quat ℚ) (h : (reset_env_ids s).Nonempty) :
    pre_physics_resets s initial_root_states pert plate_quats =
      reset_idx s initial_root_states (reset_env_ids s) (reset_plates_flag s)
        pert plate_quats := by
  unfold pre_physics_resets
  rw [if_pos h]

/-- The marker states after a full tick are those left by the reset
stage. -/
lemma pre_physics_step_fst_marker {n : ℕ} (s : EnvState n)
    (initial_root_states : Fin n → RootState ℚ) (actions : Fin n → Fin 4 → ℚ) (dt : ℚ)
    (pert : Fin n → Vec3 ℚ) (plate_quats : Fin n → Quat ℚ) :
    (pre_physics_step s initial_root_states actions dt pert plate_quats).1.marker_states =
      (pre_physics_resets (pre_physics_targets s).1 initial_root_states pert
        plate_quats).1.marker_states := rfl

/-- The target positions after a full tick are those left by the reset
stage. -/
lemma pre_physics_step_fst_target {n : ℕ} (s : EnvState n)
    (initial_root_states : Fin n → RootState ℚ) (actions : Fin n → Fin 4 → ℚ) (dt : ℚ)
    (pert : Fin n → Vec3 ℚ) (plate_quats : Fin n → Quat ℚ) :
    (pre_physics_step s initial_root_states actions dt pert
        plate_quats).1.target_root_positions =
      (pre_physics_resets (pre_physics_targets s).1 initial_root_states pert
        plate_quats).1.target_root_positions := rfl

/-- One marker state after a reset call: quaternion overwritten exactly
under the plate flag, position and velocities untouched. -/
lemma reset_idx_fst_marker {n : ℕ} (s : EnvState n)
    (initial_root_states : Fin n → RootState ℚ) (env_ids : Finset (Fin n))
    (reset_plates : Bool) (pert : Fin n → Vec3 ℚ) (plate_quats : Fin n → Quat ℚ)
    (i : Fin n) :
    (reset_idx s initial_root_states env_ids reset_plates pert
        plate_quats).1.marker_states i =
      if reset_plates ∧ i ∈ env_ids then { s.marker_states i with quat := plate_quats i }
      else s.marker_states i := rfl

/-- A reset call never touches the target positions. -/
lemma reset_idx_fst_target {n : ℕ} (s : EnvState n)
    (initial_root_states : Fin n → RootState ℚ) (env_ids : Finset (Fin n))
    (reset_plates : Bool) (pert : Fin n → Vec3 ℚ) (plate_quats : Fin n → Quat ℚ) :
    (reset_idx s initial_root_states env_ids reset_plates pert
        plate_quats).1.target_root_positions = s.target_root_positions := rfl

/-- The single indexed root-state write performed inside `reset_idx`
(line 194) covers the drone actor indices of the given environments. -/
lemma reset_idx_snd_writes {n : ℕ} (s : EnvState n)
    (initial_root_states : Fin n → RootState ℚ) (env_ids : Finset (Fin n))
    (reset_plates : Bool) (pert : Fin n → Vec3 ℚ) (plate_quats : Fin n → Quat ℚ) :
    (reset_idx s initial_root_states env_ids reset_plates pert plate_quats).2.1 =
      [drone_actor_indices env_ids] := rfl

/-- The value returned by `reset_idx` (line 199) is the ascending sort
of the drone actor indices of the given environments. -/
lemma reset_idx_snd_ret {n : ℕ} (s : EnvState n)
    (initial_root_states : Fin n → RootState ℚ) (env_ids : Finset (Fin n))
    (reset_plates : Bool) (pert : Fin n → Vec3 ℚ) (plate_quats : Fin n → Quat ℚ) :
    (reset_idx s initial_root_states env_ids reset_plates pert plate_quats).2.2 =
      (drone_actor_indices env_ids).sort (· ≤ ·) := rfl

/-- One drone root state after a reset call: snapshot plus position
perturbation for the given environments, untouched elsewhere. -/
lemma reset_idx_fst_root {n : ℕ} (s : EnvState n)
    (initial_root_states : Fin n → RootState ℚ) (env_ids : Finset (Fin n))
    (reset_plates : Bool) (pert : Fin n → Vec3 ℚ) (plate_quats : Fin n → Quat ℚ)
    (i : Fin n) :
    (reset_idx s initial_root_states env_ids reset_plates pert
        plate_quats).1.root_states i =
      if i ∈ env_ids then
        { initial_root_states i with
            pos := ⟨(initial_root_states i).pos.x + (pert i).x,
              (initial_root_states i).pos.y + (pert i).y,
              (initial_root_states i).pos.z + (pert i).z⟩ }
      else s.root_states i := rfl

/-- The reset flags after a reset call are zero on the given set. -/
lemma reset_idx_fst_reset_buf {n : ℕ} (s : EnvState n)
    (initial_root_states : Fin n → RootState ℚ) (env_ids : Finset (Fin n))
    (reset_plates : Bool) (pert : Fin n → Vec3 ℚ) (plate_quats : Fin n → Quat ℚ)
    (i : Fin n) :
    (reset_idx s initial_root_states env_ids reset_plates pert
        plate_quats).1.reset_buf i =
      if i ∈ env_ids then 0 else s.reset_buf i := rfl

/-- The progress counters after a reset call are zero on the given
set. -/
lemma reset_idx_fst_progress_buf {n : ℕ} (s : EnvState n)
    (initial_root_states : Fin n → RootState ℚ) (env_ids : Finset (Fin n))
    (reset_plates : Bool) (pert : Fin n → Vec3 ℚ) (plate_quats : Fin n → Quat ℚ)
    (i : Fin n) :
    (reset_idx s initial_root_states env_ids reset_plates pert
        plate_quats).1.progress_buf i =
      if i ∈ env_ids then 0 else s.progress_buf i := rfl

/-- A reset call never moves a marker: only its quaternion can
change. -/
lemma reset_idx_fst_marker_pos {n : ℕ} (s : EnvState n)
    (initial_root_states : Fin n → RootState ℚ) (env_ids : Finset (Fin n))
    (reset_plates : Bool) (pert : Fin n → Vec3 ℚ) (plate_quats : Fin n → Quat ℚ)
    (i : Fin n) :
    ((reset_idx s initial_root_states env_ids reset_plates pert
        plate_quats).1.marker_states i).pos = (s.marker_states i).pos := by
  rw [reset_idx_fst_marker]
  split <;> rfl

/-- The reset stage never touches the target positions. -/
lemma pre_physics_resets_fst_target {n : ℕ} (s : EnvState n)
    (initial_root_states : Fin n → RootState ℚ) (pert : Fin n → Vec3 ℚ)
    (plate_quats : Fin n → Quat ℚ) :
    (pre_physics_resets s initial_root_states pert
        plate_quats).1.target_root_positions = s.target_root_positions := by
  unfold pre_physics_resets
  split
  · exact reset_idx_fst_target _ _ _ _ _ _
  · rfl

/-- The reset stage never moves a marker. -/
lemma pre_physics_resets_fst_marker_pos {n : ℕ} (s : EnvState n)
    (initial_root_states : Fin n → RootState ℚ) (pert : Fin n → Vec3 ℚ)
    (plate_quats : Fin n → Quat ℚ) (i : Fin n) :
    ((pre_physics_resets s initial_root_states pert
        plate_quats).1.marker_states i).pos = (s.marker_states i).pos := by
  unfold pre_physics_resets
  split
  · exact reset_idx_fst_marker_pos _ _ _ _ _ _ i
  · rfl

/-- The thrust row of an environment after a full tick. -/
lemma pre_physics_step_fst_thrusts {n : ℕ} (s : EnvState n)
    (initial_root_states : Fin n → RootState ℚ) (actions : Fin n → Fin 4 → ℚ) (dt : ℚ)
    (pert : Fin n → Vec3 ℚ) (plate_quats : Fin n → Quat ℚ) (i : Fin n) :
    (pre_physics_step s initial_root_states actions dt pert plate_quats).1.thrusts i =
      if i ∈ reset_env_ids (pre_physics_targets s).1 then (fun _ => 0)
      else (pre_physics_resets (pre_physics_targets s).1 initial_root_states pert
        plate_quats).1.thrusts i := rfl

/-- The force rows of an environment after a full tick. -/
lemma pre_physics_step_fst_forces {n : ℕ} (s : EnvState n)
    (initial_root_states : Fin n → RootState ℚ) (actions : Fin n → Fin 4 → ℚ) (dt : ℚ)
    (pert : Fin n → Vec3 ℚ) (plate_quats : Fin n → Quat ℚ) (i : Fin n) :
    (pre_physics_step s initial_root_states actions dt pert plate_quats).1.forces i =
      if i ∈ reset_env_ids (pre_physics_targets s).1 then (fun _ => ⟨0, 0, 0⟩)
      else mapped_forces
        (pre_physics_resets (pre_physics_targets s).1 initial_root_states pert
          plate_quats).1 actions dt i := rfl

/-- The target position of an environment due a new target after the
target-scheduling stage. -/
lemma pre_physics_targets_fst_target_mem {n : ℕ} (s : EnvState n) (i : Fin n)
    (hi : i ∈ set_target_ids s) :
    (pre_physics_targets s).1.target_root_positions i = ⟨0 * 10 - 5, 0 * 10 - 5, 0 + 1⟩ := by
  unfold pre_physics_targets
  rw [if_pos ⟨i, hi⟩]
  simp [set_targets, hi]

/-- The marker position of an environment due a new target after the
target-scheduling stage. -/
lemma pre_physics_targets_fst_marker_pos_mem {n : ℕ} (s : EnvState n) (i : Fin n)
    (hi : i ∈ set_target_ids s) :
    ((pre_physics_targets s).1.marker_states i).pos =
      ⟨0 * 10 - 5, 0 * 10 - 5, (0 + 1) + 0⟩ := by
  unfold pre_physics_targets
  rw [if_pos ⟨i, hi⟩]
  simp [set_targets, hi]

/-- Environments not due a new target keep their target position through
the target-scheduling stage. -/
lemma pre_physics_targets_fst_target_not_mem {n : ℕ} (s : EnvState n) (i : Fin n)
    (hi : i ∉ set_target_ids s) :
    (pre_physics_targets s).1.target_root_positions i = s.target_root_positions i := by
  unfold pre_physics_targets
  split
  · simp [set_targets, hi]
  · rfl

/-- Environments not due a new target keep their whole marker state
through the target-scheduling stage. -/
lemma pre_physics_targets_fst_marker_not_mem {n : ℕ} (s : EnvState n) (i : Fin n)
    (hi : i ∉ set_target_ids s) :
    (pre_physics_targets s).1.marker_states i = s.marker_states i := by
  unfold pre_physics_targets
  split
  · simp [set_targets, hi]
  · rfl

/-- Environments outside the target-due set keep their whole marker
state through the reset stage as well: the plate flag can only be set
when every reset environment has progress 0, and such an environment is
itself target-due (0 is a multiple of 500). -/
lemma pre_physics_resets_fst_marker_not_target {n : ℕ} (s : EnvState n)
    (initial_root_states : Fin n → RootState ℚ) (pert : Fin n → Vec3 ℚ)
    (plate_quats : Fin n → Quat ℚ) (i : Fin n) (hi : i ∉ set_target_ids s) :
    (pre_physics_resets (pre_physics_targets s).1 initial_root_states pert
        plate_quats).1.marker_states i = (pre_physics_targets s).1.marker_states i := by
  unfold pre_physics_resets
  split
  · rw [reset_idx_fst_marker, if_neg]
    rintro ⟨hb, hmem⟩
    have hall := of_decide_eq_true hb
    rw [reset_env_ids_pre_physics_targets] at hmem
    have hz : s.progress_buf i = 0 := by
      have := hall i (by rw [reset_env_ids_pre_physics_targets]; exact hmem)
      rwa [pre_physics_targets_progress_buf] at this
    exact hi (Finset.mem_filter.mpr ⟨Finset.mem_univ i, by rw [hz]; norm_num⟩)
  · rfl

/-- C1, counterexample: at zero distance to the target, an upright
quaternion and zero angular velocity, the reward computed by
`compute_drone_reward` equals 9, which exceeds the bound 6 asserted by
the claim. -/
theorem c1_claimed_bound_fails :
    6 < (compute_drone_reward ⟨0, 0, 1⟩ ⟨0, 0, 1⟩ ⟨0, 0, 0, 1⟩ ⟨0, 0, 0⟩ ⟨0, 0, 0⟩
      0 0 500).1 := by
  simp only [compute_drone_reward, quat_axis, quat_rotate, basis_vec_two]
  norm_num [Real.sqrt_zero]

/-- C1, amended: for every finite input, the per-environment reward
returned by `compute_drone_reward` is strictly greater than 0 and at
most 9 (not 6): `pos_reward ≤ 3` is multiplied by
`1 + up_reward + spinnage_reward ≤ 3`. -/
theorem c1_reward_bounds (root_positions target_root_positions : Vec3 ℝ)
    (root_quats : Quat ℝ) (root_linvels root_angvels : Vec3 ℝ)
    (reset_buf progress_buf max_episode_length : ℤ) :
    0 < (compute_drone_reward root_positions target_root_positions root_quats
        root_linvels root_angvels reset_buf progress_buf max_episode_length).1 ∧
      (compute_drone_reward root_positions target_root_positions root_quats
        root_linvels root_angvels reset_buf progress_buf max_episode_length).1 ≤ 9 :=
  reward_formula_bounds _ _ _

/-- C2: whenever an environment's progress counter equals
`max_episode_length - 1`, `compute_drone_reward` returns `reset = 1` for
that environment, whatever the physical state (and hence whatever value
the `die` flag would take). -/
theorem c2_timeout_forces_reset (root_positions target_root_positions : Vec3 ℝ)
    (root_quats : Quat ℝ) (root_linvels root_angvels : Vec3 ℝ)
    (reset_buf progress_buf max_episode_length : ℤ)
    (h : progress_buf = max_episode_length - 1) :
    (compute_drone_reward root_positions target_root_positions root_quats
      root_linvels root_angvels reset_buf progress_buf max_episode_length).2 = 1 := by
  simp only [compute_drone_reward]
  rw [if_pos (show progress_buf ≥ max_episode_length - 1 by omega)]

/-- C2, witness: a concrete environment at progress 9 with
`max_episode_length = 10` and a healthy state (so `die = 0`) still gets
`reset = 1`. -/
theorem c2_timeout_forces_reset_witness :
    (compute_drone_reward ⟨0, 0, 1⟩ ⟨0, 0, 1⟩ ⟨0, 0, 0, 1⟩ ⟨0, 0, 0⟩ ⟨0, 0, 0⟩
      0 9 10).2 = 1 :=
  c2_timeout_forces_reset _ _ _ _ _ _ _ _ (by norm_num)

/-- C3: below the time limit, `compute_drone_reward` returns `reset = 1`
if and only if the distance to the target exceeds 8, or the altitude is
below 0.5, or the world-frame z-component of the rotated body up axis is
negative; each disjunct independently forces `reset = 1` via `mpr`. -/
theorem c3_reset_iff_die (root_positions target_root_positions : Vec3 ℝ)
    (root_quats : Quat ℝ) (root_linvels root_angvels : Vec3 ℝ)
    (reset_buf progress_buf max_episode_length : ℤ)
    (h : progress_buf < max_episode_length - 1) :
    (compute_drone_reward root_positions target_root_positions root_quats
        root_linvels root_angvels reset_buf progress_buf max_episode_length).2 = 1 ↔
      (Real.sqrt ((target_root_positions.x - root_positions.x) ^ 2 +
          (target_root_positions.y - root_positions.y) ^ 2 +
          (target_root_positions.z - root_positions.z) ^ 2) > 8 ∨
        root_positions.z < 0.5 ∨ (quat_axis root_quats 2).z < 0) := by
  simp only [compute_drone_reward]
  rw [if_neg (show ¬progress_buf ≥ max_episode_length - 1 by omega)]
  split_ifs with h1 h2 h3 <;> simp_all

/-- C3, witness: a drone at altitude 0.3 < 0.5 and progress 2 with
`max_episode_length = 10` gets `reset = 1` through the altitude
disjunct. -/
theorem c3_reset_iff_die_witness :
    (compute_drone_reward ⟨0, 0, 0.3⟩ ⟨0, 0, 1⟩ ⟨0, 0, 0, 1⟩ ⟨0, 0, 0⟩ ⟨0, 0, 0⟩
      0 2 10).2 = 1 :=
  (c3_reset_iff_die _ _ _ _ _ _ _ _ (by norm_num)).mpr (Or.inr (Or.inl (by norm_num)))

/-- C4: during a tick, the plate/marker orientation is overwritten with
the fresh tilt draw exactly for the environments of the reset set, and
only when the reset set is nonempty and every environment in it entered
the tick with progress counter 0 (the full-batch-synchronized-reset
proxy of line 210); in every other case every environment's plate
orientation is left untouched. -/
theorem c4_plate_rerandomized_iff_sync {n : ℕ} (s : EnvState n)
    (initial_root_states : Fin n → RootState ℚ) (actions : Fin n → Fin 4 → ℚ) (dt : ℚ)
    (pert : Fin n → Vec3 ℚ) (plate_quats : Fin n → Quat ℚ) :
    (((reset_env_ids s).Nonempty ∧ ∀ j ∈ reset_env_ids s, s.progress_buf j = 0) →
      ∀ i, ((pre_physics_step s initial_root_states actions dt pert
          plate_quats).1.marker_states i).quat =
        if i ∈ reset_env_ids s then plate_quats i else (s.marker_states i).quat) ∧
    (¬((reset_env_ids s).Nonempty ∧ ∀ j ∈ reset_env_ids s, s.progress_buf j = 0) →
      ∀ i, ((pre_physics_step s initial_root_states actions dt pert
          plate_quats).1.marker_states i).quat = (s.marker_states i).quat) := by
  constructor
  · rintro ⟨hne, hall⟩ i
    rw [pre_physics_step_fst_marker,
      pre_physics_resets_of_nonempty _ _ _ _
        (by rw [reset_env_ids_pre_physics_targets]; exact hne),
      reset_env_ids_pre_physics_targets, reset_plates_flag_pre_physics_targets,
      reset_idx_fst_marker, decide_eq_true hall]
    by_cases hi : i ∈ reset_env_ids s
    · rw [if_pos ⟨rfl, hi⟩, if_pos hi]
    · rw [if_neg (fun h => hi h.2), if_neg hi]
      exact pre_physics_targets_marker_quat s i
  · intro hnc i
    rw [pre_physics_step_fst_marker]
    by_cases hne : (reset_env_ids s).Nonempty
    · have hall : ¬∀ j ∈ reset_env_ids s, s.progress_buf j = 0 :=
        fun h => hnc ⟨hne, h⟩
      rw [pre_physics_resets_of_nonempty _ _ _ _
            (by rw [reset_env_ids_pre_physics_targets]; exact hne),
        reset_env_ids_pre_physics_targets, reset_plates_flag_pre_physics_targets,
        reset_idx_fst_marker, decide_eq_false hall,
        if_neg (fun h => Bool.false_ne_true h.1)]
      exact pre_physics_targets_marker_quat s i
    · rw [pre_physics_resets_of_empty _ _ _ _
          (by rw [reset_env_ids_pre_physics_targets]; exact hne)]
      exact pre_physics_targets_marker_quat s i

/-- C4, witness: in a one-environment batch whose environment is flagged
for reset at progress 0, the tick overwrites the plate orientation with
the fresh draw. -/
theorem c4_plate_rerandomized_iff_sync_witness :
    ((pre_physics_step exStateEpoch exInit1 exActions1 (1 / 60) exPert1
        exPlateQuats1).1.marker_states 0).quat =
      if (0 : Fin 1) ∈ reset_env_ids exStateEpoch then exPlateQuats1 0
      else (exStateEpoch.marker_states 0).quat :=
  (c4_plate_rerandomized_iff_sync exStateEpoch exInit1 exActions1 (1 / 60) exPert1
    exPlateQuats1).1 (by constructor <;> decide) 0

/-- The root-state write trace of a tick: the writes of the reset stage
followed by the combined deduplicated write when its index set is
nonempty. -/
lemma pre_physics_step_snd {n : ℕ} (s : EnvState n)
    (initial_root_states : Fin n → RootState ℚ) (actions : Fin n → Fin 4 → ℚ) (dt : ℚ)
    (pert : Fin n → Vec3 ℚ) (plate_quats : Fin n → Quat ℚ) :
    (pre_physics_step s initial_root_states actions dt pert plate_quats).2 =
      (pre_physics_resets (pre_physics_targets s).1 initial_root_states pert
          plate_quats).2.1 ++
        (if ((pre_physics_targets s).2 ∪
            (pre_physics_resets (pre_physics_targets s).1 initial_root_states pert
              plate_quats).2.2.toFinset).Nonempty then
          [(pre_physics_targets s).2 ∪
            (pre_physics_resets (pre_physics_targets s).1 initial_root_states pert
              plate_quats).2.2.toFinset]
        else []) := rfl

/-- C5, counterexample: with one environment flagged for reset
mid-episode (no re-targeting due), the tick pushes root state to the
simulator twice — once from inside `reset_idx` (line 194) and once for
the combined union (line 215) — not in exactly one indexed batch
write. -/
theorem c5_single_write_fails :
    (pre_physics_step exStateReset1 exInit1 exActions1 (1 / 60) exPert1
        exPlateQuats1).2.length = 2 ∧
      (pre_physics_step exStateReset1 exInit1 exActions1 (1 / 60) exPert1
        exPlateQuats1).2 = [{0}, {0}] := by
  have hne : (reset_env_ids exStateReset1).Nonempty :=
    ⟨0, Finset.mem_filter.mpr ⟨Finset.mem_univ 0, by norm_num [exStateReset1]⟩⟩
  have hD : drone_actor_indices (reset_env_ids exStateReset1) = {0} := by
    have hR : reset_env_ids exStateReset1 = {0} := by
      ext i
      fin_cases i
      simp [reset_env_ids, exStateReset1]
    rw [hR]
    simp [drone_actor_indices]
  have hT : (pre_physics_targets exStateReset1).2 = ∅ := by
    have hids : set_target_ids exStateReset1 = ∅ := by
      ext i
      fin_cases i
      simp [set_target_ids, exStateReset1]
    unfold pre_physics_targets
    rw [hids, if_neg Finset.not_nonempty_empty]
  rw [pre_physics_step_snd,
    pre_physics_resets_of_nonempty _ _ _ _
      (by rw [reset_env_ids_pre_physics_targets]; exact hne),
    reset_env_ids_pre_physics_targets, reset_idx_snd_writes, reset_idx_snd_ret,
    Finset.sort_toFinset, hD, hT,
    if_pos (show (∅ ∪ ({0} : Finset ℕ)).Nonempty by simp)]
  simp

/-- C5, amended: the union of the target-due and reset-due actor
indices is deduplicated and pushed in one combined indexed write, but
`reset_idx` has already pushed the reset drone indices in its own
indexed write (line 194), so a tick with a nonempty reset set performs
two indexed root-state writes; only a tick without resets performs at
most the single combined write. -/
theorem c5_write_trace {n : ℕ} (s : EnvState n)
    (initial_root_states : Fin n → RootState ℚ) (actions : Fin n → Fin 4 → ℚ) (dt : ℚ)
    (pert : Fin n → Vec3 ℚ) (plate_quats : Fin n → Quat ℚ) :
    ((reset_env_ids s).Nonempty →
      (pre_physics_step s initial_root_states actions dt pert plate_quats).2 =
        [drone_actor_indices (reset_env_ids s),
          (pre_physics_targets s).2 ∪ drone_actor_indices (reset_env_ids s)]) ∧
    (¬(reset_env_ids s).Nonempty →
      (pre_physics_step s initial_root_states actions dt pert plate_quats).2 =
        if (pre_physics_targets s).2.Nonempty then [(pre_physics_targets s).2]
        else []) := by
  constructor
  · intro hne
    rw [pre_physics_step_snd,
      pre_physics_resets_of_nonempty _ _ _ _
        (by rw [reset_env_ids_pre_physics_targets]; exact hne),
      reset_env_ids_pre_physics_targets, reset_idx_snd_writes, reset_idx_snd_ret,
      Finset.sort_toFinset,
      if_pos (show ((pre_physics_targets s).2 ∪
          drone_actor_indices (reset_env_ids s)).Nonempty from
        Finset.Nonempty.inr (hne.image fun i => 2 * i.val))]
    rfl
  · intro hem
    rw [pre_physics_step_snd,
      pre_physics_resets_of_empty _ _ _ _
        (by rw [reset_env_ids_pre_physics_targets]; exact hem)]
    show [] ++ _ = _
    rw [List.nil_append, List.toFinset_nil, Finset.union_empty]

/-- C5, witness: the two-write trace of the amended statement at a
concrete resetting tick. -/
theorem c5_write_trace_witness :
    (pre_physics_step exStateReset1 exInit1 exActions1 (1 / 60) exPert1
        exPlateQuats1).2 =
      [drone_actor_indices (reset_env_ids exStateReset1),
        (pre_physics_targets exStateReset1).2 ∪
          drone_actor_indices (reset_env_ids exStateReset1)] :=
  (c5_write_trace exStateReset1 exInit1 exActions1 (1 / 60) exPert1 exPlateQuats1).1
    ⟨0, Finset.mem_filter.mpr ⟨Finset.mem_univ 0, by norm_num [exStateReset1]⟩⟩

/-- C6: after `reset_idx` runs, every flagged environment's position is
the initial-snapshot position plus the perturbation draw (whose x and y
components were sampled in [-1.5, 1.5] and z component in [-0.2, 1.5]),
its quaternion and velocities are the snapshot's, and its reset flag and
progress counter are exactly 0. -/
theorem c6_reset_restores_snapshot {n : ℕ} (s : EnvState n)
    (initial_root_states : Fin n → RootState ℚ) (env_ids : Finset (Fin n))
    (reset_plates : Bool) (pert : Fin n → Vec3 ℚ) (plate_quats : Fin n → Quat ℚ)
    (hx : ∀ i ∈ env_ids, -(3 / 2) ≤ (pert i).x ∧ (pert i).x ≤ 3 / 2)
    (hy : ∀ i ∈ env_ids, -(3 / 2) ≤ (pert i).y ∧ (pert i).y ≤ 3 / 2)
    (hz : ∀ i ∈ env_ids, -(1 / 5) ≤ (pert i).z ∧ (pert i).z ≤ 3 / 2)
    (i : Fin n) (hi : i ∈ env_ids) :
    ((reset_idx s initial_root_states env_ids reset_plates pert
          plate_quats).1.root_states i).pos =
        ⟨(initial_root_states i).pos.x + (pert i).x,
          (initial_root_states i).pos.y + (pert i).y,
          (initial_root_states i).pos.z + (pert i).z⟩ ∧
      ((initial_root_states i).pos.x - 3 / 2 ≤
          ((reset_idx s initial_root_states env_ids reset_plates pert
            plate_quats).1.root_states i).pos.x ∧
        ((reset_idx s initial_root_states env_ids reset_plates pert
            plate_quats).1.root_states i).pos.x ≤ (initial_root_states i).pos.x + 3 / 2) ∧
      ((initial_root_states i).pos.y - 3 / 2 ≤
          ((reset_idx s initial_root_states env_ids reset_plates pert
            plate_quats).1.root_states i).pos.y ∧
        ((reset_idx s initial_root_states env_ids reset_plates pert
            plate_quats).1.root_states i).pos.y ≤ (initial_root_states i).pos.y + 3 / 2) ∧
      ((initial_root_states i).pos.z - 1 / 5 ≤
          ((reset_idx s initial_root_states env_ids reset_plates pert
            plate_quats).1.root_states i).pos.z ∧
        ((reset_idx s initial_root_states env_ids reset_plates pert
            plate_quats).1.root_states i).pos.z ≤ (initial_root_states i).pos.z + 3 / 2) ∧
      ((reset_idx s initial_root_states env_ids reset_plates pert
          plate_quats).1.root_states i).quat = (initial_root_states i).quat ∧
      ((reset_idx s initial_root_states env_ids reset_plates pert
          plate_quats).1.root_states i).linvel = (initial_root_states i).linvel ∧
      ((reset_idx s initial_root_states env_ids reset_plates pert
          plate_quats).1.root_states i).angvel = (initial_root_states i).angvel ∧
      (reset_idx s initial_root_states env_ids reset_plates pert
        plate_quats).1.reset_buf i = 0 ∧
      (reset_idx s initial_root_states env_ids reset_plates pert
        plate_quats).1.progress_buf i = 0 := by
  obtain ⟨hx1, hx2⟩ := hx i hi
  obtain ⟨hy1, hy2⟩ := hy i hi
  obtain ⟨hz1, hz2⟩ := hz i hi
  rw [reset_idx_fst_root _ _ _ _ _ _ i, reset_idx_fst_reset_buf _ _ _ _ _ _ i,
    reset_idx_fst_progress_buf _ _ _ _ _ _ i, if_pos hi, if_pos hi, if_pos hi]
  dsimp only
  exact ⟨rfl, ⟨by linarith, by linarith⟩, ⟨by linarith, by linarith⟩,
    ⟨by linarith, by linarith⟩, rfl, rfl, rfl, rfl, rfl⟩

/-- C6, witness: the theorem instantiated at a concrete one-environment
reset with draws x = 1, y = -1, z = 1/2. -/
theorem c6_reset_restores_snapshot_witness :
    ((reset_idx exStateReset1 exInit1 {0} false exPert1
          exPlateQuats1).1.root_states 0).pos =
        ⟨(exInit1 0).pos.x + (exPert1 0).x, (exInit1 0).pos.y + (exPert1 0).y,
          (exInit1 0).pos.z + (exPert1 0).z⟩ ∧
      ((exInit1 0).pos.x - 3 / 2 ≤
          ((reset_idx exStateReset1 exInit1 {0} false exPert1
            exPlateQuats1).1.root_states 0).pos.x ∧
        ((reset_idx exStateReset1 exInit1 {0} false exPert1
            exPlateQuats1).1.root_states 0).pos.x ≤ (exInit1 0).pos.x + 3 / 2) ∧
      ((exInit1 0).pos.y - 3 / 2 ≤
          ((reset_idx exStateReset1 exInit1 {0} false exPert1
            exPlateQuats1).1.root_states 0).pos.y ∧
        ((reset_idx exStateReset1 exInit1 {0} false exPert1
            exPlateQuats1).1.root_states 0).pos.y ≤ (exInit1 0).pos.y + 3 / 2) ∧
      ((exInit1 0).pos.z - 1 / 5 ≤
          ((reset_idx exStateReset1 exInit1 {0} false exPert1
            exPlateQuats1).1.root_states 0).pos.z ∧
        ((reset_idx exStateReset1 exInit1 {0} false exPert1
            exPlateQuats1).1.root_states 0).pos.z ≤ (exInit1 0).pos.z + 3 / 2) ∧
      ((reset_idx exStateReset1 exInit1 {0} false exPert1
          exPlateQuats1).1.root_states 0).quat = (exInit1 0).quat ∧
      ((reset_idx exStateReset1 exInit1 {0} false exPert1
          exPlateQuats1).1.root_states 0).linvel = (exInit1 0).linvel ∧
      ((reset_idx exStateReset1 exInit1 {0} false exPert1
          exPlateQuats1).1.root_states 0).angvel = (exInit1 0).angvel ∧
      (reset_idx exStateReset1 exInit1 {0} false exPert1
        exPlateQuats1).1.reset_buf 0 = 0 ∧
      (reset_idx exStateReset1 exInit1 {0} false exPert1
        exPlateQuats1).1.progress_buf 0 = 0 :=
  c6_reset_restores_snapshot exStateReset1 exInit1 {0} false exPert1 exPlateQuats1
    (by intro j _; constructor <;> norm_num [exPert1])
    (by intro j _; constructor <;> norm_num [exPert1])
    (by intro j _; constructor <;> norm_num [exPert1])
    0 (Finset.mem_singleton_self 0)

/-- C7: after the force mapping of a tick (and before forces are handed
to the simulator), every environment of the reset set has a zero thrust
vector and an all-zero force buffer row, so it inherits no thrust from
the previous action. -/
theorem c7_reset_envs_have_zero_forces {n : ℕ} (s : EnvState n)
    (initial_root_states : Fin n → RootState ℚ) (actions : Fin n → Fin 4 → ℚ) (dt : ℚ)
    (pert : Fin n → Vec3 ℚ) (plate_quats : Fin n → Quat ℚ) (i : Fin n)
    (hi : i ∈ reset_env_ids s) :
    (pre_physics_step s initial_root_states actions dt pert plate_quats).1.thrusts i =
        (fun _ => 0) ∧
      (pre_physics_step s initial_root_states actions dt pert plate_quats).1.forces i =
        (fun _ => ⟨0, 0, 0⟩) := by
  constructor
  · rw [pre_physics_step_fst_thrusts, reset_env_ids_pre_physics_targets, if_pos hi]
  · rw [pre_physics_step_fst_forces, reset_env_ids_pre_physics_targets, if_pos hi]

/-- C7, witness: the concrete resetting environment ends the tick with
zero thrusts and forces even though its action row is nonzero. -/
theorem c7_reset_envs_have_zero_forces_witness :
    (pre_physics_step exStateReset1 exInit1 exActions1 (1 / 60) exPert1
        exPlateQuats1).1.thrusts 0 = (fun _ => 0) ∧
      (pre_physics_step exStateReset1 exInit1 exActions1 (1 / 60) exPert1
        exPlateQuats1).1.forces 0 = (fun _ => ⟨0, 0, 0⟩) :=
  c7_reset_envs_have_zero_forces exStateReset1 exInit1 exActions1 (1 / 60) exPert1
    exPlateQuats1 0
    (Finset.mem_filter.mpr ⟨Finset.mem_univ 0, by norm_num [exStateReset1]⟩)

/-- C8: the per-rotor thrust of every environment is its own action
component scaled and clamped into
`[thrust_lower_limit, thrust_upper_limit] = [0, 2000]`, whatever the
action magnitude, and it is unchanged if the whole action batch changes
outside that environment. -/
theorem c8_thrust_clamped {n : ℕ} (actions : Fin n → Fin 4 → ℚ) (i : Fin n) (k : Fin 4) :
    (thrust_lower_limit = 0 ∧ thrust_upper_limit = 2000) ∧
      (thrust_lower_limit ≤ thrust_prop (actions i) k ∧
        thrust_prop (actions i) k ≤ thrust_upper_limit) ∧
      ∀ actions2 : Fin n → Fin 4 → ℚ, actions2 i = actions i →
        thrust_prop (actions2 i) k = thrust_prop (actions i) k := by
  refine ⟨⟨rfl, rfl⟩, ⟨?_, ?_⟩, fun actions2 h => by rw [h]⟩
  · exact le_min (le_max_right _ _) (by norm_num [thrust_lower_limit, thrust_upper_limit])
  · exact min_le_right _ _

/-- C8, witness: the bounds hold at an action component of magnitude 100
(far outside [-1, 1]), and the locality conjunct applies to it. -/
theorem c8_thrust_clamped_witness :
    (thrust_lower_limit ≤ thrust_prop (exActionsBig 0) 0 ∧
        thrust_prop (exActionsBig 0) 0 ≤ thrust_upper_limit) ∧
      thrust_prop (exActionsBig 0) 0 = thrust_prop (exActionsBig 0) 0 :=
  ⟨(c8_thrust_clamped exActionsBig 0 0).2.1,
    (c8_thrust_clamped exActionsBig 0 0).2.2 exActionsBig rfl⟩

/-- C9: the environments re-targeted during a tick are exactly those
whose progress counter is a multiple of 500; each of them gets target
position (-5, -5, 1) and its marker moved there, and every other
environment's target and whole marker state are untouched. -/
theorem c9_retarget_set_exact {n : ℕ} (s : EnvState n)
    (initial_root_states : Fin n → RootState ℚ) (actions : Fin n → Fin 4 → ℚ) (dt : ℚ)
    (pert : Fin n → Vec3 ℚ) (plate_quats : Fin n → Quat ℚ) :
    (∀ i, i ∈ set_target_ids s ↔ s.progress_buf i % 500 = 0) ∧
      (∀ i ∈ set_target_ids s,
        (pre_physics_step s initial_root_states actions dt pert
            plate_quats).1.target_root_positions i = ⟨-5, -5, 1⟩ ∧
          ((pre_physics_step s initial_root_states actions dt pert
            plate_quats).1.marker_states i).pos = ⟨-5, -5, 1⟩) ∧
      ∀ i ∉ set_target_ids s,
        (pre_physics_step s initial_root_states actions dt pert
            plate_quats).1.target_root_positions i = s.target_root_positions i ∧
          (pre_physics_step s initial_root_states actions dt pert
            plate_quats).1.marker_states i = s.marker_states i := by
  refine ⟨fun i => by simp [set_target_ids], fun i hi => ⟨?_, ?_⟩, fun i hi => ⟨?_, ?_⟩⟩
  · rw [pre_physics_step_fst_target, pre_physics_resets_fst_target,
      pre_physics_targets_fst_target_mem s i hi]
    norm_num
  · rw [pre_physics_step_fst_marker, pre_physics_resets_fst_marker_pos,
      pre_physics_targets_fst_marker_pos_mem s i hi]
    norm_num
  · rw [pre_physics_step_fst_target, pre_physics_resets_fst_target,
      pre_physics_targets_fst_target_not_mem s i hi]
  · rw [pre_physics_step_fst_marker,
      pre_physics_resets_fst_marker_not_target _ _ _ _ i hi,
      pre_physics_targets_fst_marker_not_mem s i hi]

/-- C9, witness: the environment at progress 0 is in the re-target set
and ends the tick with target and marker at (-5, -5, 1). -/
theorem c9_retarget_set_exact_witness :
    ((0 : Fin 1) ∈ set_target_ids exStateEpoch ↔
        exStateEpoch.progress_buf 0 % 500 = 0) ∧
      (pre_physics_step exStateEpoch exInit1 exActions1 (1 / 60) exPert1
          exPlateQuats1).1.target_root_positions 0 = ⟨-5, -5, 1⟩ ∧
      ((pre_physics_step exStateEpoch exInit1 exActions1 (1 / 60) exPert1
          exPlateQuats1).1.marker_states 0).pos = ⟨-5, -5, 1⟩ := by
  have h := c9_retarget_set_exact exStateEpoch exInit1 exActions1 (1 / 60) exPert1
    exPlateQuats1
  have hmem : (0 : Fin 1) ∈ set_target_ids exStateEpoch :=
    Finset.mem_filter.mpr ⟨Finset.mem_univ 0, by norm_num [exStateEpoch]⟩
  exact ⟨h.1 0, (h.2.1 0 hmem).1, (h.2.1 0 hmem).2⟩

/-- C10, counterexample: a reset call with plate re-randomization
modifies the plate/marker actor of environment 0 (actor index 1), yet
its return value does not contain that actor index, so it is not the
set of all actors whose state was modified. -/
theorem c10_return_omits_marker :
    (1 : ℕ) ∈ modified_actor_indices exStateReset1
        (reset_idx exStateReset1 exInit1 {0} true exPert1 exPlateQuats1).1 ∧
      (1 : ℕ) ∉ (reset_idx exStateReset1 exInit1 {0} true exPert1 exPlateQuats1).2.2 := by
  constructor
  · apply Finset.mem_union_right
    apply Finset.mem_image.mpr
    refine ⟨0, Finset.mem_filter.mpr ⟨Finset.mem_univ 0, ?_⟩, rfl⟩
    rw [reset_idx_fst_marker, if_pos ⟨rfl, Finset.mem_singleton_self 0⟩]
    norm_num [exStateReset1, exPlateQuats1]
  · rw [reset_idx_snd_ret]
    intro hmem
    rw [Finset.mem_sort] at hmem
    rcases Finset.mem_image.mp hmem with ⟨j, _, hj⟩
    omega

/-- C10, amended: `reset_idx` returns the sorted duplicate-free list of
the drone actor indices (column 0) of the flagged environments only;
the plate/marker actor indices are never included, even when plate
re-randomization modified those actors. -/
theorem c10_returns_sorted_drone_indices {n : ℕ} (s : EnvState n)
    (initial_root_states : Fin n → RootState ℚ) (env_ids : Finset (Fin n))
    (reset_plates : Bool) (pert : Fin n → Vec3 ℚ) (plate_quats : Fin n → Quat ℚ) :
    List.Sorted (· ≤ ·)
        ((reset_idx s initial_root_states env_ids reset_plates pert plate_quats).2.2) ∧
      ((reset_idx s initial_root_states env_ids reset_plates pert
        plate_quats).2.2).Nodup ∧
      ∀ a, a ∈ (reset_idx s initial_root_states env_ids reset_plates pert
          plate_quats).2.2 ↔ a ∈ drone_actor_indices env_ids := by
  rw [reset_idx_snd_ret]
  exact ⟨Finset.sort_sorted _ _, Finset.sort_nodup _ _, fun a => Finset.mem_sort _⟩

end DronePlate
